import Mathlib

/-!
Shallow embedding of the conversation core of `src/app.py` (a Streamlit
English-conversation chatbot) and proofs about it.

The transcript is the Python list `st.session_state.messages`, whose
elements are dicts `{"role": "user" | "assistant", "content": str}`.
The LLM-facing history `gemini_chat_history` is rebuilt on every submitted
turn (app.py lines 371-378): user messages map to `{"role": "user",
"parts": [content]}`, assistant messages map to `{"role": "model",
"parts": [content]}` unless their content contains the literal
`"Okay, switching to the "`, in which case they are dropped.
Persona-switch seeding is app.py lines 273-312; the submit cycle is
lines 362-401; transcription is `transcribe_audio_gcp` (lines 100-149);
input priority is lines 352-359.
-/

namespace ChatApp

/-- Python truthiness of a string: `if s:` is taken iff `s` is nonempty. -/
def pyTruthy (s : String) : Bool := !(s == "")

/-- Does `needle` occur at the very start of `hay`? (char-list level) -/
def subAt : List Char → List Char → Bool
  | [], _ => true
  | _ :: _, [] => false
  | a :: as, b :: bs => a == b && subAt as bs

/-- Substring occurrence on char lists: `subIn n h` iff `n` occurs
contiguously somewhere in `h`. -/
def subIn (needle : List Char) : List Char → Bool
  | [] => subAt needle []
  | b :: bs => subAt needle (b :: bs) || subIn needle bs

/-- Python's `needle in hay` substring test on strings. -/
def containsSub (needle hay : String) : Bool := subIn needle.data hay.data

/-- Role of a transcript message, the `"role"` key in
`st.session_state.messages` entries. -/
inductive Role
  | user
  | assistant
deriving DecidableEq, Repr

/-- One entry of `st.session_state.messages`: `{"role": ..., "content": ...}`. -/
structure Message where
  role : Role
  content : String
deriving DecidableEq, Repr

/-- Role tag in the Gemini-facing history (`"user"` or `"model"`). -/
inductive HistRole
  | user
  | model
deriving DecidableEq, Repr

/-- One entry of `gemini_chat_history`: `{"role": ..., "parts": [...]}`. -/
structure HistEntry where
  role : HistRole
  parts : List String
deriving DecidableEq, Repr

/-- The literal tested by app.py line 377:
`if "Okay, switching to the " not in msg["content"]`. -/
def switchLiteral : String := "Okay, switching to the "

/-- How one transcript message is treated by the history loop of app.py
lines 372-378: user messages become user entries, assistant messages
become model entries unless their content contains `switchLiteral`. -/
def projectMsg (msg : Message) : Option HistEntry :=
  match msg.role with
  | .user => some ⟨.user, [msg.content]⟩
  | .assistant =>
      if containsSub switchLiteral msg.content then none
      else some ⟨.model, [msg.content]⟩

/-- `gemini_chat_history` (app.py lines 371-378): the model-facing history
built from the transcript. -/
def gemini_chat_history (messages : List Message) : List HistEntry :=
  messages.filterMap projectMsg

/-- The code's marker for a persona-switch system notice: an assistant
message whose content contains `switchLiteral`. The spec's
`kind = SystemNotice` has no explicit field in the source; this predicate
is its code-level representation. -/
def isSystemNotice (m : Message) : Bool :=
  m.role == Role.assistant && containsSub switchLiteral m.content

/-- The role/parts remapping the history loop applies to a message it keeps. -/
def turnToEntry (m : Message) : HistEntry :=
  match m.role with
  | .user => ⟨.user, [m.content]⟩
  | .assistant => ⟨.model, [m.content]⟩

/-- The three personas offered by the sidebar selectbox (app.py lines 248-257). -/
inductive Persona
  | hana
  | mark
  | msBrown
deriving DecidableEq, Repr

/-- The selectbox label of each persona (`english_level` in app.py). -/
def personaName : Persona → String
  | .hana => "Hana"
  | .mark => "Mark"
  | .msBrown => "Ms. Brown"

/-- `initial_message` (app.py lines 277-283 and 296-302): the greeting of
each persona. -/
def initial_message : Persona → String
  | .hana => "Hi! I'm Tanaka Hana. What would you like to talk about today?"
  | .mark => "Hey there! I'm Mark. What's up?"
  | .msBrown => "Good day! I'm Ms. Brown. How may I assist you today?"

/-- `system_change_message` (app.py line 304):
`f"Okay, switching to the {english_level} . {initial_message}"`. -/
def system_change_message (p : Persona) : String :=
  "Okay, switching to the " ++ personaName p ++ " . " ++ initial_message p

/-- The persona-relevant part of `st.session_state`: the transcript plus
`previous_english_level`. -/
structure SessionState where
  messages : List Message
  previous_english_level : Persona
deriving DecidableEq, Repr

/-- Fresh-session seeding (app.py lines 273-284): start with an empty
transcript, append the selected persona's greeting as one assistant turn
and record the level. -/
def initSession (english_level : Persona) : SessionState :=
  { messages := [⟨Role.assistant, initial_message english_level⟩]
    previous_english_level := english_level }

/-- Persona-switch check run on every cycle (app.py lines 293-306): if the
selected level differs from `previous_english_level`, clear the transcript,
append the single switch-announcement turn and record the new level;
otherwise do nothing. -/
def personaSwitchStep (s : SessionState) (english_level : Persona) : SessionState :=
  if s.previous_english_level ≠ english_level then
    { messages := [⟨Role.assistant, system_change_message english_level⟩]
      previous_english_level := english_level }
  else s

/-- Controller states of the spec's state machine; one submit cycle of the
script runs Idle → AwaitingResponse → Idle. -/
inductive ControllerState
  | Idle
  | AwaitingResponse
deriving DecidableEq, Repr

/-- The formatted error content appended on a Gemini failure (app.py
line 401): `f"An error occurred with Gemini: {e}. Please try again."`. -/
def errorMessage (e : String) : String :=
  "An error occurred with Gemini: " ++ e ++ ". Please try again."

/-- The assistant content a submit cycle appends: on a completed stream the
concatenation of all chunks (`full_response`, app.py lines 385-391), on an
exception the formatted error message (line 401). -/
def finalResponse : Except String (List String) → String
  | .ok chunks => chunks.foldl (fun acc c => acc ++ c) ""
  | .error e => errorMessage e

/-- Observable outcome of one submit cycle: the transcript afterwards, the
history handed to `model.start_chat`, whether a model call was made, and
the controller state reached. -/
structure SubmitResult where
  messages : List Message
  history : List HistEntry
  modelCalled : Bool
  finalState : ControllerState
deriving DecidableEq, Repr

/-- One submit cycle (app.py lines 362-401): guarded by Python truthiness of
the prompt; appends the user turn, builds `gemini_chat_history` from the
transcript as it then stands (user turn included), calls the model, and
appends either the full streamed response or the formatted error message.
The model call outcome (stream chunks or a raised exception) is passed in
as an `Except` value. -/
def submitUserTurn (messages : List Message) (text : String)
    (modelResult : Except String (List String)) : SubmitResult :=
  if pyTruthy text then
    let msgs1 := messages ++ [⟨Role.user, text⟩]
    { messages := msgs1 ++ [⟨Role.assistant, finalResponse modelResult⟩]
      history := gemini_chat_history msgs1
      modelCalled := true
      finalState := ControllerState.Idle }
  else
    { messages := messages
      history := []
      modelCalled := false
      finalState := ControllerState.Idle }

/-- Iterated submit cycles: run each (text, model outcome) pair in order,
threading the transcript through. -/
def runSubmits : List Message → List (String × Except String (List String)) → List Message
  | messages, [] => messages
  | messages, s :: rest => runSubmits (submitUserTurn messages s.1 s.2).messages rest

/-- The pair of turns one successful-or-failed submit cycle appends, listed
for a whole sequence of cycles. -/
def turnsOf : List (String × Except String (List String)) → List Message
  | [] => []
  | s :: rest =>
      ⟨Role.user, s.1⟩ :: ⟨Role.assistant, finalResponse s.2⟩ :: turnsOf rest

/-- `final_user_input_prompt` selection in the voice branch (app.py lines
352-356): a truthy mic transcription wins, otherwise truthy typed text,
otherwise empty. `st.chat_input` may return `None`, modeled as `none`. -/
def final_user_input_prompt (mic : String) (typed : Option String) : String :=
  if pyTruthy mic then mic
  else
    match typed with
    | some t => if pyTruthy t then t else ""
    | none => ""

/-- The exception-prone stages of `transcribe_audio_gcp`, each modeled as a
value: whether the STT client was initialized, the outcome of decoding /
trimming the audio (yielding the `detect_nonsilent` chunk list as
millisecond ranges), and the outcome of the `recognize` call (yielding the
`alternatives[0].transcript` string of each result). -/
structure SttInput where
  clientInit : Bool
  decodeResult : Except String (List (Nat × Nat))
  recognizeResult : Except String (List String)
deriving Repr

/-- `transcribe_audio_gcp` (app.py lines 100-149): returns `""` when the
client is uninitialized, when decoding raises, when no nonsilent chunks
remain after trimming, or when recognition raises; otherwise concatenates
the per-result transcripts. Every exception point sits inside the
function's `try`/`except`, so the caller always receives a string — the
embedding is a total function into `String`. -/
def transcribe_audio_gcp (inp : SttInput) : String :=
  if inp.clientInit = false then ""
  else
    match inp.decodeResult with
    | .error _ => ""
    | .ok nonsilentChunks =>
        if nonsilentChunks.isEmpty then ""
        else
          match inp.recognizeResult with
          | .error _ => ""
          | .ok results => results.foldl (fun acc t => acc ++ t) ""

/-! ## Helper lemmas -/

/-- A kept message's remapped entry is a member of the built history. -/
theorem mem_history_of_mem {m : Message} {h : HistEntry} {msgs : List Message}
    (hm : m ∈ msgs) (hp : projectMsg m = some h) : h ∈ gemini_chat_history msgs := by
  simp only [gemini_chat_history, List.mem_filterMap]
  exact ⟨m, hm, hp⟩

/-- The history loop keeps a user message as a user entry. -/
theorem projectMsg_user (c : String) :
    projectMsg ⟨Role.user, c⟩ = some ⟨HistRole.user, [c]⟩ := rfl

/-- The history of an extended transcript is the history of the original
followed by the projection of the extension. -/
theorem gemini_chat_history_append (msgs rest : List Message) :
    gemini_chat_history (msgs ++ rest)
      = gemini_chat_history msgs ++ gemini_chat_history rest := by
  simp [gemini_chat_history]

/-! ## Claims -/

/-- Claim C1: the model-history projection drops all and only the
persona-switch system notices (in the code, assistant messages whose
content contains the switch literal), maps user turns to role `user` and
kept assistant turns to role `model`, and preserves input order exactly —
it equals a filter of the transcript followed by an order-preserving map.
Determinism on identical input is inherent: `gemini_chat_history` is a
pure function. -/
theorem history_drops_exactly_notices (msgs : List Message) :
    gemini_chat_history msgs
      = (msgs.filter (fun m => !(isSystemNotice m))).map turnToEntry := by
  induction msgs with
  | nil => rfl
  | cons m rest ih =>
      rcases m with ⟨r, c⟩
      cases r with
      | user =>
          simp only [gemini_chat_history, List.filterMap_cons, projectMsg,
            isSystemNotice, List.filter_cons] at ih ⊢
          simp [turnToEntry, ih]
      | assistant =>
          cases hc : containsSub switchLiteral c with
          | true =>
              simp only [gemini_chat_history, List.filterMap_cons, projectMsg,
                isSystemNotice, List.filter_cons, hc] at ih ⊢
              simp [ih]
          | false =>
              simp only [gemini_chat_history, List.filterMap_cons, projectMsg,
                isSystemNotice, List.filter_cons, hc] at ih ⊢
              simp [turnToEntry, ih]

/-- Claim C9: the history filter tests only assistant-role messages and
decides by substring: an entry is dropped iff it is an assistant message
whose content contains the literal `"Okay, switching to the "`; every
user-role message is kept (as a user entry) whatever its content; and an
assistant message that merely happens to contain the literal — here a
genuine-looking reply — is silently dropped. -/
theorem history_filters_by_substring :
    (∀ m : Message,
        projectMsg m = none
          ↔ m.role = Role.assistant ∧ containsSub switchLiteral m.content = true)
    ∧ (∀ m : Message, m.role = Role.user
          → projectMsg m = some ⟨HistRole.user, [m.content]⟩)
    ∧ gemini_chat_history
        [⟨Role.assistant, "Sure! Okay, switching to the topic of food."⟩] = [] := by
  refine ⟨fun m => ?_, fun m hm => ?_, by decide⟩
  · rcases m with ⟨r, c⟩
    cases r with
    | user => simp [projectMsg]
    | assistant =>
        cases hc : containsSub switchLiteral c <;> simp [projectMsg, hc]
  · rcases m with ⟨r, c⟩
    cases hm
    rfl

/-- Witness for C9 at a concrete message: a user message with arbitrary
content is kept as a user history entry. -/
theorem history_filters_by_substring_witness :
    projectMsg ⟨Role.user, "Okay, switching to the moon"⟩
      = some ⟨HistRole.user, ["Okay, switching to the moon"]⟩ :=
  history_filters_by_substring.2.1 ⟨Role.user, "Okay, switching to the moon"⟩ rfl

/-- Claim C2, counterexample: starting from a fresh Hana transcript and
submitting "Hello", the just-appended user turn IS part of the history
handed to `start_chat` — the claim says it is not. (The code appends the
user turn at line 363 before building the history at lines 371-378.) -/
theorem submitted_turn_in_history_counterexample :
    (⟨HistRole.user, ["Hello"]⟩ : HistEntry)
      ∈ (submitUserTurn
          [⟨Role.assistant, "Hi! I'm Tanaka Hana. What would you like to talk about today?"⟩]
          "Hello" (Except.ok ["Hi there!"])).history := by decide

/-- Claim C2 amended: for every non-empty submission, the history handed to
`start_chat` is the projection of the transcript INCLUDING the
just-appended user turn — it equals the projection of the prior transcript
with the submitted user entry appended at the end, so the user's text is
delivered to the model twice (once in the history, once via `send_message`). -/
theorem history_includes_submitted_turn (msgs : List Message) (text : String)
    (modelResult : Except String (List String)) (htext : pyTruthy text = true) :
    (submitUserTurn msgs text modelResult).history
        = gemini_chat_history (msgs ++ [⟨Role.user, text⟩])
    ∧ (submitUserTurn msgs text modelResult).history
        = gemini_chat_history msgs ++ [⟨HistRole.user, [text]⟩] := by
  constructor
  · simp [submitUserTurn, htext]
  · simp [submitUserTurn, htext, gemini_chat_history_append,
      gemini_chat_history, projectMsg]

/-- Witness for C2 amended at a concrete submission. -/
theorem history_includes_submitted_turn_witness :
    (submitUserTurn [] "Hello" (Except.ok ["Hi"])).history
      = gemini_chat_history [] ++ [⟨HistRole.user, ["Hello"]⟩] :=
  (history_includes_submitted_turn [] "Hello" (Except.ok ["Hi"]) (by decide)).2

/-- Claim C3, counterexample: if the raised error's text itself contains the
switch literal, the appended error turn is NOT included in the history of
the following turn — the claim's "included in the model history of every
subsequent turn" fails there. -/
theorem error_turn_filtered_counterexample :
    (⟨HistRole.model, [errorMessage "Okay, switching to the backup model failed"]⟩ : HistEntry)
      ∉ (submitUserTurn
          (submitUserTurn [] "Hello"
            (Except.error "Okay, switching to the backup model failed")).messages
          "Next" (Except.ok ["fine"])).history := by decide

/-- Claim C3 amended: if the model call raises during a submitted turn, the
transcript gains exactly one Assistant turn whose content is the formatted
error message, the controller returns to Idle so the session continues,
and — provided the formatted error message does not contain the switch
literal, which real Gemini errors do not — that error turn is included in
the model history built for every subsequent turn. -/
theorem error_turn_appended_and_kept (msgs : List Message) (text e : String)
    (htext : pyTruthy text = true)
    (hlit : containsSub switchLiteral (errorMessage e) = false) :
    (submitUserTurn msgs text (Except.error e)).messages
        = msgs ++ [⟨Role.user, text⟩, ⟨Role.assistant, errorMessage e⟩]
    ∧ (submitUserTurn msgs text (Except.error e)).finalState = ControllerState.Idle
    ∧ ∀ rest : List Message,
        (⟨HistRole.model, [errorMessage e]⟩ : HistEntry)
          ∈ gemini_chat_history
              ((submitUserTurn msgs text (Except.error e)).messages ++ rest) := by
  have hmsgs : (submitUserTurn msgs text (Except.error e)).messages
      = msgs ++ [⟨Role.user, text⟩, ⟨Role.assistant, errorMessage e⟩] := by
    simp [submitUserTurn, htext, finalResponse]
  refine ⟨hmsgs, by simp [submitUserTurn, htext], fun rest => ?_⟩
  apply mem_history_of_mem (m := ⟨Role.assistant, errorMessage e⟩)
  · rw [hmsgs]
    simp
  · simp [projectMsg, hlit]

/-- Witness for C3 amended: a concrete failing submission on an empty
transcript. -/
theorem error_turn_appended_and_kept_witness :
    (submitUserTurn [] "Hello" (Except.error "boom")).messages
      = [⟨Role.user, "Hello"⟩, ⟨Role.assistant, errorMessage "boom"⟩] := by
  have h := error_turn_appended_and_kept [] "Hello" "boom" (by decide) (by decide)
  simpa using h.1

/-- Claim C4: an actual switch to persona P (selected level differs from the
recorded one) leaves a transcript of exactly one seed turn whose content
contains P's greeting; a fresh session seeded with P likewise holds exactly
one turn containing P's greeting; and the fresh Hana seed contains
"Tanaka Hana". -/
theorem persona_seed_turn (p : Persona) (s : SessionState)
    (h : s.previous_english_level ≠ p) :
    ((personaSwitchStep s p).messages.length = 1
      ∧ ∀ m ∈ (personaSwitchStep s p).messages,
          containsSub (initial_message p) m.content = true)
    ∧ ((initSession p).messages.length = 1
      ∧ ∀ m ∈ (initSession p).messages,
          containsSub (initial_message p) m.content = true)
    ∧ (∀ m ∈ (initSession Persona.hana).messages,
          containsSub "Tanaka Hana" m.content = true) := by
  have hstep : personaSwitchStep s p
      = { messages := [⟨Role.assistant, system_change_message p⟩]
          previous_english_level := p } := by
    simp [personaSwitchStep, h]
  rw [hstep]
  refine ⟨⟨rfl, fun m hm => ?_⟩, ⟨rfl, fun m hm => ?_⟩, fun m hm => ?_⟩
  · simp only [List.mem_singleton] at hm
    subst hm
    cases p <;> decide
  · simp only [initSession, List.mem_singleton] at hm
    subst hm
    cases p <;> decide
  · simp only [initSession, List.mem_singleton] at hm
    subst hm
    decide

/-- Witness for C4: switching from Mark to Hana seeds exactly one turn. -/
theorem persona_seed_turn_witness :
    (personaSwitchStep ⟨[], Persona.mark⟩ Persona.hana).messages.length = 1 :=
  (persona_seed_turn Persona.hana ⟨[], Persona.mark⟩ (by decide)).1.1

/-- Claim C5: the persona-switch check with the currently recorded level is
a no-op — the transcript is neither cleared nor reseeded and the recorded
level is unchanged, for every session state. -/
theorem switch_same_persona_noop (s : SessionState) :
    personaSwitchStep s s.previous_english_level = s := by
  simp [personaSwitchStep]

/-- Claim C6, counterexample: a whitespace-only submission (a single space)
is NOT a no-op — the guard `if final_user_input_prompt:` tests Python
truthiness, i.e. non-emptiness only, so the blank turn is appended and the
model is called, contradicting the claim's "empty or blank text is a
no-op". -/
theorem blank_submission_counterexample :
    (submitUserTurn [] " " (Except.ok ["ok"])).modelCalled = true
    ∧ (submitUserTurn [] " " (Except.ok ["ok"])).messages
        = [⟨Role.user, " "⟩, ⟨Role.assistant, "ok"⟩] := by decide

/-- Claim C6 amended: submitting EMPTY text is a no-op — no user turn is
appended, no model call is made, the state stays Idle — and an empty
transcription from silent audio with no typed fallback never becomes a
submitted turn; whitespace-only text, however, passes the truthiness guard
and is submitted like any other non-empty text. -/
theorem empty_submission_noop (msgs : List Message)
    (modelResult : Except String (List String)) :
    (submitUserTurn msgs "" modelResult).messages = msgs
    ∧ (submitUserTurn msgs "" modelResult).modelCalled = false
    ∧ (submitUserTurn msgs "" modelResult).finalState = ControllerState.Idle
    ∧ final_user_input_prompt "" none = ""
    ∧ (submitUserTurn msgs (final_user_input_prompt "" none) modelResult).messages
        = msgs := by
  refine ⟨?_, ?_, ?_, rfl, ?_⟩ <;>
    simp [submitUserTurn, final_user_input_prompt, pyTruthy]

/-- Any single submit cycle only ever extends the transcript at the end:
the prior transcript is an unchanged prefix of the new one. -/
theorem submit_extends_transcript (msgs : List Message) (text : String)
    (modelResult : Except String (List String)) :
    ∃ suffix, (submitUserTurn msgs text modelResult).messages = msgs ++ suffix := by
  cases htext : pyTruthy text with
  | true =>
      exact ⟨[⟨Role.user, text⟩, ⟨Role.assistant, finalResponse modelResult⟩],
        by simp [submitUserTurn, htext]⟩
  | false => exact ⟨[], by simp [submitUserTurn, htext]⟩

/-- Claim C7: the transcript is append-only and never reordered — running
any sequence of non-empty submissions appends exactly the alternating
User/Assistant turn pairs, in submission order, after the untouched prior
transcript; and every single submit cycle (the only transcript mutation
besides the persona-switch reset) leaves the prior transcript as a prefix. -/
theorem transcript_append_only (msgs : List Message)
    (subs : List (String × Except String (List String)))
    (hall : ∀ p ∈ subs, pyTruthy p.1 = true) :
    runSubmits msgs subs = msgs ++ turnsOf subs
    ∧ ∀ (text : String) (modelResult : Except String (List String)),
        ∃ suffix, (submitUserTurn msgs text modelResult).messages = msgs ++ suffix := by
  refine ⟨?_, fun text modelResult => submit_extends_transcript msgs text modelResult⟩
  induction subs generalizing msgs with
  | nil => simp [runSubmits, turnsOf]
  | cons s rest ih =>
      have hs : pyTruthy s.1 = true := hall s (by simp)
      have hrest : ∀ p ∈ rest, pyTruthy p.1 = true := fun p hp =>
        hall p (by simp [hp])
      simp only [runSubmits, turnsOf]
      rw [ih _ hrest]
      simp [submitUserTurn, hs]

/-- Witness for C7: two concrete submissions (one success, one failure)
append exactly the four turns in order. -/
theorem transcript_append_only_witness :
    runSubmits [⟨Role.assistant, "seed"⟩]
        [("Hi", Except.ok ["A"]), ("Bye", Except.error "x")]
      = [⟨Role.assistant, "seed"⟩]
        ++ turnsOf [("Hi", Except.ok ["A"]), ("Bye", Except.error "x")] :=
  (transcript_append_only [⟨Role.assistant, "seed"⟩]
    [("Hi", Except.ok ["A"]), ("Bye", Except.error "x")] (by decide)).1

/-- Claim C8: `transcribe_audio_gcp` fails soft — it returns the empty
string when the STT client is uninitialized, when audio decoding raises,
when no nonsilent chunks survive trimming, and when the recognize call
raises. Every exception point is inside its `try`/`except` (which returns
`""`), so the embedding is a total function into `String`: nothing is ever
raised to the caller. -/
theorem transcribe_fails_soft (inp : SttInput) :
    (inp.clientInit = false → transcribe_audio_gcp inp = "")
    ∧ ((∃ e, inp.decodeResult = Except.error e) → transcribe_audio_gcp inp = "")
    ∧ (inp.decodeResult = Except.ok [] → transcribe_audio_gcp inp = "")
    ∧ (∀ chunks e, inp.decodeResult = Except.ok chunks
        → inp.recognizeResult = Except.error e
        → transcribe_audio_gcp inp = "") := by
  refine ⟨fun h => by simp [transcribe_audio_gcp, h], ?_, ?_, ?_⟩
  · rintro ⟨e, he⟩
    cases hc : inp.clientInit <;> simp [transcribe_audio_gcp, hc, he]
  · intro he
    cases hc : inp.clientInit <;> simp [transcribe_audio_gcp, hc, he]
  · intro chunks e hd hr
    cases hc : inp.clientInit with
    | false => simp [transcribe_audio_gcp, hc]
    | true =>
        cases chunks with
        | nil => simp [transcribe_audio_gcp, hc, hd]
        | cons a as => simp [transcribe_audio_gcp, hc, hd, hr]

/-- Witness for C8: a concrete input whose recognize call raises yields the
empty string. -/
theorem transcribe_fails_soft_witness :
    transcribe_audio_gcp
        ⟨true, Except.ok [(0, 400)], Except.error "transport closed"⟩ = "" :=
  (transcribe_fails_soft ⟨true, Except.ok [(0, 400)], Except.error "transport closed"⟩).2.2.2
    [(0, 400)] "transport closed" rfl rfl

/-- Claim C10: in the voice branch, a non-empty microphone transcription is
always chosen as the submitted prompt, whatever was typed; typed text is
used only when the transcription is empty (and an absent or empty typed
value then yields no submission). -/
theorem mic_input_priority (mic t : String) (hmic : pyTruthy mic = true) :
    (∀ typed : Option String, final_user_input_prompt mic typed = mic)
    ∧ final_user_input_prompt "" (some t) = (if pyTruthy t then t else "")
    ∧ final_user_input_prompt "" none = "" := by
  refine ⟨fun typed => ?_, ?_, rfl⟩
  · simp [final_user_input_prompt, hmic]
  · simp [final_user_input_prompt, pyTruthy]

/-- Witness for C10: with both a mic transcription and typed text present,
the mic transcription wins. -/
theorem mic_input_priority_witness :
    final_user_input_prompt "from mic" (some "typed words") = "from mic" :=
  (mic_input_priority "from mic" "typed words" (by decide)).1 (some "typed words")

end ChatApp
